import Mathlib

/-!
Verification development for the CPI execution engine of OmniAgent
(src/cpi_actions.rs).  The Rust code is shallowly embedded: JSON values
(serde_json::Value) become the inductive `Json`, subprocess execution is
abstracted by an environment `Env` mapping each spawn request to an
outcome, and `CpiCommand.execute` returns both the ordered list of spawn
requests it made (the observable trace) and its result.
-/

/-- serde_json::Value.  `obj` models serde_json::Map, which is backed by a
BTreeMap (keys iterated in ascending order); we carry the fields as an
association list in that order.  `num` models the integral numbers the
repository uses. -/
inductive Json where
  | null
  | bool (b : Bool)
  | num (n : Int)
  | str (s : String)
  | arr (elems : List Json)
  | obj (fields : List (String × Json))
deriving Repr

/-- Value::get on an object (None on any non-object, as in serde_json). -/
def Json.getKey : Json → String → Option Json
  | .obj fields, k => (fields.find? (fun kv => kv.1 = k)).map (fun kv => kv.2)
  | _, _ => none

/-- Value::as_str. -/
def Json.asStr : Json → Option String
  | .str s => some s
  | _ => none

/-- Value::as_array. -/
def Json.asArr : Json → Option (List Json)
  | .arr xs => some xs
  | _ => none

/-- Value::as_object. -/
def Json.asObj : Json → Option (List (String × Json))
  | .obj fields => some fields
  | _ => none

/-- One hexadecimal digit, lowercase (as serde_json emits in escapes). -/
def hexDigit (n : Nat) : Char :=
  if n < 10 then Char.ofNat (48 + n) else Char.ofNat (87 + n)

/-- JSON string escaping as serde_json::to_string performs it. -/
def escapeJsonChar (c : Char) : String :=
  if c = '"' then "\\\""
  else if c = '\\' then "\\\\"
  else if c = '\n' then "\\n"
  else if c = '\r' then "\\r"
  else if c = '\t' then "\\t"
  else if c = '\x08' then "\\b"
  else if c = '\x0c' then "\\f"
  else if c.toNat < 32 then
    "\\u00" ++ String.mk [hexDigit (c.toNat / 16), hexDigit (c.toNat % 16)]
  else String.singleton c

def escapeJsonString (s : String) : String :=
  s.toList.foldl (fun acc c => acc ++ escapeJsonChar c) ""

mutual
/-- serde_json::to_string: the compact serialization (no whitespace). -/
def jsonCompact : Json → String
  | .null => "null"
  | .bool b => if b then "true" else "false"
  | .num n => toString n
  | .str s => "\"" ++ escapeJsonString s ++ "\""
  | .arr xs => "[" ++ jsonCompactElems xs ++ "]"
  | .obj fs => "\x7b" ++ jsonCompactFields fs ++ "\x7d"

def jsonCompactElems : List Json → String
  | [] => ""
  | [x] => jsonCompact x
  | x :: y :: xs => jsonCompact x ++ "," ++ jsonCompactElems (y :: xs)

def jsonCompactFields : List (String × Json) → String
  | [] => ""
  | [kv] => "\"" ++ escapeJsonString kv.1 ++ "\":" ++ jsonCompact kv.2
  | kv :: kw :: fs =>
      "\"" ++ escapeJsonString kv.1 ++ "\":" ++ jsonCompact kv.2 ++ ","
        ++ jsonCompactFields (kw :: fs)
end

/-- str::trim_matches with a character predicate: removes every matching
character from the front and from the back of the string. -/
def trimMatchesPred (p : Char → Bool) (s : String) : String :=
  String.mk (((s.toList.dropWhile p).reverse.dropWhile p).reverse)

/-- The predicate `|c| c == '\x7b' || c == '\x7d'` used for objects. -/
def isBraceChar (c : Char) : Bool := c = '\x7b' || c = '\x7d'

/-- The predicate `|c| c == '[' || c == ']'` used for arrays. -/
def isBracketChar (c : Char) : Bool := c = '[' || c = ']'

/-- str::replace, character-list worker: leftmost-first, non-overlapping
occurrences of `pat` are replaced by `rep`.  (The engine only ever calls
this with the nonempty pattern `\x7bkey\x7d`.)  The recursion is made
structural on a fuel argument; `replaceAll` supplies the list length, which
always suffices since every step consumes at least one character. -/
def replaceAllAux (pat rep : List Char) : Nat → List Char → List Char
  | _, [] => []
  | 0, l => l
  | fuel + 1, c :: cs =>
    if pat.isPrefixOf (c :: cs) then
      rep ++ replaceAllAux pat rep fuel (cs.drop (pat.length - 1))
    else
      c :: replaceAllAux pat rep fuel cs

def replaceAll (pat rep s : String) : String :=
  String.mk (replaceAllAux pat.toList rep.toList s.toList.length s.toList)

/-- Whether `pat` occurs as a contiguous substring of `l`. -/
def occursSub (pat : List Char) : List Char → Bool
  | [] => pat.isEmpty
  | c :: cs => pat.isPrefixOf (c :: cs) || occursSub pat cs

/-- A spawn request: std::process::Command::new(executable).args(args). -/
structure Spawn where
  executable : String
  args : List String
deriving DecidableEq, Repr

/-- std::process::Output, with stdout/stderr already decoded as text. -/
structure ProcOutput where
  success : Bool
  stdout : String
  stderr : String
deriving DecidableEq, Repr

/-- Outcome of Command::output(): either the process ran (`spawned`) or
spawning itself failed with an io::Error (`ioError`). -/
inductive SpawnResult where
  | spawned (out : ProcOutput)
  | ioError (msg : String)
deriving DecidableEq, Repr

/-- The operating system, abstracted: what each spawn request produces. -/
def Env : Type := Spawn → SpawnResult

/-- How the Rust code terminates abnormally: an anyhow error carrying a
message (`error`), or a Rust panic (`panicked`, from `.unwrap()`). -/
inductive Failure where
  | error (msg : String)
  | panicked (msg : String)
deriving DecidableEq, Repr

/-- `command_str.splitn(2, ' ')` first element: the characters before the
first space; the remainder (if a space was found) is returned separately. -/
def breakFirstSpace : List Char → List Char × Option (List Char)
  | [] => ([], none)
  | c :: cs =>
    if c = ' ' then ([], some cs)
    else
      let r := breakFirstSpace cs
      (c :: r.1, r.2)

/-- str::split_whitespace worker: `acc` holds the current word reversed. -/
def splitWsAux : List Char → List Char → List String
  | [], acc => if acc = [] then [] else [String.mk acc.reverse]
  | c :: cs, acc =>
    if c.isWhitespace then
      if acc = [] then splitWsAux cs []
      else String.mk acc.reverse :: splitWsAux cs []
    else splitWsAux cs (c :: acc)

/-- str::split_whitespace, collected to a list (empty words dropped). -/
def splitWhitespace (s : String) : List String := splitWsAux s.toList []

/-- The spawn request built by execute_shell_cmd (src/cpi_actions.rs
lines 125-142): the command string is split at the first space; the first
part is the executable, the whitespace-separated words of the rest are the
arguments.  No shell is involved. -/
def shellCmdSpawn (command_str : String) : Spawn :=
  let parts := breakFirstSpace command_str.toList
  let executable := String.mk parts.1
  let args := match parts.2 with
    | none => ""
    | some cs => String.mk cs
  ⟨executable, splitWhitespace args⟩

/-- execute_shell_cmd: dispatches the spawn request to the OS (`env`) and
returns the request together with its outcome. -/
def execute_shell_cmd (env : Env) (command_str : String) : Spawn × SpawnResult :=
  let sp := shellCmdSpawn command_str
  (sp, env sp)

/-- Space-join of words, used to state what `shellCmdSpawn` computes. -/
def joinWords : List String → String
  | [] => ""
  | [w] => w
  | w :: x :: ws => w ++ " " ++ joinWords (x :: ws)

/-- The placeholder string `\x7bkey\x7d` built by
`format!("\x7b\x7b\x7b\x7d\x7d\x7d", key)`. -/
def placeholderOf (key : String) : String := "\x7b" ++ key ++ "\x7d"

/-- The per-value string coercion of replace_template_params
(src/cpi_actions.rs lines 148-161). -/
def replacementOf : Json → String
  | .str s => s
  | .num n => toString n
  | .bool b => if b then "true" else "false"
  | .obj o => trimMatchesPred isBraceChar (jsonCompact (.obj o))
  | .arr a => trimMatchesPred isBracketChar (jsonCompact (.arr a))
  | .null => "null"

/-- replace_template_params (src/cpi_actions.rs lines 144-166): for each
(key, value) of the parameter map in iteration order, every occurrence of
`\x7bkey\x7d` in the accumulated string is replaced by the coercion of the
value. -/
def replace_template_params (params : List (String × Json)) (command_str : String) : String :=
  params.foldl (fun acc kv => replaceAll (placeholderOf kv.1) (replacementOf kv.2) acc) command_str

/-- The CpiCommandType enum (src/cpi_actions.rs lines 184-216).  `env` is a
HashMap in the source; serde_json::to_value lands it in a BTreeMap, so the
embedding sorts it by key when serializing. -/
inductive CpiCommandType where
  | createContainer (image : String) (name : String) (ports : List String)
      (envVars : List (String × String))
  | deleteContainer (name : String)
  | startContainer (name : String)
  | stopContainer (name : String)
  | restartContainer (name : String)
  | inspectContainer (name : String)
  | listContainers
deriving DecidableEq, Repr

/-- impl ToString for CpiCommandType (src/cpi_actions.rs lines 218-230). -/
def CpiCommandType.toString : CpiCommandType → String
  | .createContainer .. => "create_container"
  | .deleteContainer .. => "delete_container"
  | .startContainer .. => "start_container"
  | .stopContainer .. => "stop_container"
  | .restartContainer .. => "restart_container"
  | .inspectContainer .. => "inspect_container"
  | .listContainers => "list_containers"

/-- Insertion sort by key: the order in which a BTreeMap iterates. -/
def insertSorted (kv : String × String) : List (String × String) → List (String × String)
  | [] => [kv]
  | kw :: rest =>
    if kv.1 ≤ kw.1 then kv :: kw :: rest else kw :: insertSorted kv rest

def sortByKey (l : List (String × String)) : List (String × String) :=
  l.foldr insertSorted []

/-- serde_json::to_value(&command): externally tagged variant serialization.
Struct-variant fields land in a BTreeMap, hence appear in ascending key
order (env, image, name, ports for CreateContainer); the unit variant
ListContainers serializes to the bare string of its rename. -/
def CpiCommandType.toJson : CpiCommandType → Json
  | .createContainer image name ports envVars =>
      .obj [("create_container", .obj
        [("env", .obj ((sortByKey envVars).map (fun kv => (kv.1, Json.str kv.2)))),
         ("image", .str image),
         ("name", .str name),
         ("ports", .arr (ports.map Json.str))])]
  | .deleteContainer name => .obj [("delete_container", .obj [("name", .str name)])]
  | .startContainer name => .obj [("start_container", .obj [("name", .str name)])]
  | .stopContainer name => .obj [("stop_container", .obj [("name", .str name)])]
  | .restartContainer name => .obj [("restart_container", .obj [("name", .str name)])]
  | .inspectContainer name => .obj [("inspect_container", .obj [("name", .str name)])]
  | .listContainers => .str "list_containers"

/-- Parameter extraction inside execute (src/cpi_actions.rs lines 68-83):
if the serialized command is not an object or is an empty object, the empty
map is used; otherwise the first value of the object must itself be an
object, whose fields are the parameters. -/
def extractParamsCode (command : CpiCommandType) : Except Failure (List (String × Json)) :=
  let params := command.toJson
  if (params.asObj.map (fun obj => obj.isEmpty)).getD true then
    .ok []
  else
    match (params.asObj.bind (fun obj => obj.head?)).bind (fun kv => kv.2.asObj) with
    | some m => .ok m
    | none => .error (.error "failed to extract params from command")

/-- The struct CpiCommand (src/cpi_actions.rs lines 11-13).  The source
stores the config as the serialized string of the parsed JSON and re-parses
it inside execute; serialization followed by parsing is the identity on
values, so the embedding stores the JSON value itself. -/
structure CpiCommand where
  config : Json
deriving Repr

/-- CpiCommand::new (src/cpi_actions.rs lines 16-23): reads the file
./CPIs/cpi-docker-win.json from disk and parses it ONCE, at construction.
`disk` is the outcome of fs::read_to_string + serde_json::from_str at that
moment. -/
def CpiCommand.new (disk : Except String Json) : Except Failure CpiCommand :=
  match disk with
  | .error e => .error (.error e)
  | .ok j => .ok ⟨j⟩

/-- `.iter().map(as_str ...).collect::<Result<Vec<String>>>()`: collects
the strings, short-circuiting at the first non-string element. -/
def collectStrings : List Json → Except Failure (List String)
  | [] => .ok []
  | v :: rest =>
    match v.asStr with
    | none => .error (.error "post exec command was not a valid string")
    | some s =>
      match collectStrings rest with
      | .error f => .error f
      | .ok ss => .ok (s :: ss)

/-- Extraction of the post_exec templates (src/cpi_actions.rs lines 52-66). -/
def postExecTemplates (command_type : Json) : Except Failure (List String) :=
  match command_type.getKey "post_exec" with
  | some pe =>
    match pe.asArr with
    | none => .error (.error "Post exec commands found but were not an array")
    | some vs => collectStrings vs
  | none => .ok []

/-- The pre-spawn part of CpiCommand::execute (src/cpi_actions.rs lines
30-83): parse the stored config, look up the action, take its command
template (panicking if the field is present but not a string), collect the
post_exec templates, extract the parameters. -/
def resolveStage (self : CpiCommand) (command : CpiCommandType) :
    Except Failure (String × List String × List (String × Json)) :=
  let config_json := self.config
  match config_json.getKey "actions" with
  | none => .error (.error "\x27actions\x27 was not defined in the config")
  | some actions =>
    match actions.getKey command.toString with
    | none => .error (.error ("Command type not found for \x27" ++ command.toString ++ "\x27"))
    | some command_type =>
      match command_type.getKey "command" with
      | none => .error (.error "\x27command field not found for command type\x27")
      | some cv =>
        match cv.asStr with
        | none => .error (.panicked "called Option::unwrap on a None value")
        | some command_template =>
          match postExecTemplates command_type with
          | .error f => .error f
          | .ok post_exec_templates =>
            match extractParamsCode command with
            | .error f => .error f
            | .ok params => .ok (command_template, post_exec_templates, params)

/-- The post-exec loop (src/cpi_actions.rs lines 101-117): each template is
rendered against the same parameter map and run in declared order; a spawn
error or a non-zero exit aborts the loop with that step's error, steps after
it never running.  Returns the spawns performed and the verdict. -/
def runPostExecs (env : Env) (params : List (String × Json)) :
    List String → List Spawn × Except Failure Unit
  | [] => ([], .ok ())
  | t :: rest =>
    let post_exec_command := replace_template_params params t
    let r := execute_shell_cmd env post_exec_command
    match r.2 with
    | .ioError m => ([r.1], .error (.error m))
    | .spawned out =>
      if out.success then
        let tail := runPostExecs env params rest
        (r.1 :: tail.1, tail.2)
      else ([r.1], .error (.error out.stderr))

/-- CpiCommand::execute (src/cpi_actions.rs lines 27-122).  Returns the
ordered list of spawn requests dispatched to the OS together with the
result: on full success, the JSON object `\x7b"result": stdout\x7d` built
from the MAIN command's stdout. -/
def CpiCommand.execute (self : CpiCommand) (command : CpiCommandType) (env : Env) :
    List Spawn × Except Failure Json :=
  match resolveStage self command with
  | .error f => ([], .error f)
  | .ok (command_template, post_exec_templates, params) =>
    let command_str := replace_template_params params command_template
    let r := execute_shell_cmd env command_str
    match r.2 with
    | .ioError m => ([r.1], .error (.error m))
    | .spawned output =>
      if output.success then
        let output_str := output.stdout
        let tail := runPostExecs env params post_exec_templates
        (r.1 :: tail.1,
          tail.2.map (fun _ => Json.obj [("result", Json.str output_str)]))
      else ([r.1], .error (.error output.stderr))

/-- Modelled from the spec: "each orchestrator invocation re-reads and
re-parses the file".  The claimed behavior of an invocation made while the
file currently holds `disk`: construct from the current disk, then run. -/
def executeRereading (disk : Except String Json) (command : CpiCommandType) (env : Env) :
    List Spawn × Except Failure Json :=
  match CpiCommand.new disk with
  | .error f => ([], .error f)
  | .ok c => c.execute command env

/-- Modelled from the spec: "the value's compact JSON serialization with
its outermost delimiters stripped" — remove exactly the first and the last
character (for a compact array/object these are the outermost `[]`, braces
respectively). -/
def stripOutermost (s : String) : String :=
  String.mk ((s.toList.drop 1).dropLast)

theorem isPrefixOf_eq_false_of_occursSub (pat : List Char) (c : Char) (cs : List Char)
    (h : occursSub pat (c :: cs) = false) :
    pat.isPrefixOf (c :: cs) = false ∧ occursSub pat cs = false := by
  unfold occursSub at h
  exact Bool.or_eq_false_iff.mp h

theorem replaceAllAux_of_not_occurs (pat rep : List Char) :
    ∀ (fuel : Nat) (l : List Char), occursSub pat l = false →
      replaceAllAux pat rep fuel l = l
  | fuel, [], _ => by cases fuel <;> simp [replaceAllAux]
  | 0, _ :: _, _ => by simp [replaceAllAux]
  | fuel + 1, c :: cs, h => by
    obtain ⟨h1, h2⟩ := isPrefixOf_eq_false_of_occursSub pat c cs h
    unfold replaceAllAux
    simp only [h1, Bool.false_eq_true, if_false, List.cons.injEq, true_and]
    exact replaceAllAux_of_not_occurs pat rep fuel cs h2

/-- Rendering over a map none of whose placeholders occurs in the template
leaves the template unchanged. -/
theorem replace_template_params_of_no_occurrence :
    ∀ (params : List (String × Json)) (t : String),
      (∀ kv ∈ params, occursSub (placeholderOf kv.1).toList t.toList = false) →
      replace_template_params params t = t
  | [], _, _ => rfl
  | kv :: rest, t, h => by
    have hhead := h kv (by simp)
    have hstep : replaceAll (placeholderOf kv.1) (replacementOf kv.2) t = t := by
      unfold replaceAll
      rw [replaceAllAux_of_not_occurs _ _ _ _ hhead]
      cases t
      rfl
    unfold replace_template_params
    simp only [List.foldl_cons]
    rw [hstep]
    exact replace_template_params_of_no_occurrence rest t (fun kw hkw => h kw (by simp [hkw]))

theorem runPostExecs_all_ok (env : Env) (params : List (String × Json)) :
    ∀ posts : List String,
      (∀ t ∈ posts, ∃ o, env (shellCmdSpawn (replace_template_params params t))
          = .spawned o ∧ o.success = true) →
      runPostExecs env params posts
        = (posts.map (fun t => shellCmdSpawn (replace_template_params params t)), .ok ())
  | [], _ => rfl
  | t :: rest, h => by
    obtain ⟨o, ho, hs⟩ := h t (by simp)
    have ih := runPostExecs_all_ok env params rest (fun u hu => h u (by simp [hu]))
    unfold runPostExecs
    simp [execute_shell_cmd, ho, hs, ih]

theorem runPostExecs_fail_at (env : Env) (params : List (String × Json)) :
    ∀ (posts : List String) (i : Nat) (hi : i < posts.length) (fo : ProcOutput),
      (∀ j (hj : j < i), ∃ o,
          env (shellCmdSpawn (replace_template_params params
              (posts.get ⟨j, Nat.lt_trans hj hi⟩))) = .spawned o ∧ o.success = true) →
      env (shellCmdSpawn (replace_template_params params (posts.get ⟨i, hi⟩)))
        = .spawned fo →
      fo.success = false →
      runPostExecs env params posts
        = ((posts.take (i + 1)).map
              (fun t => shellCmdSpawn (replace_template_params params t)),
            .error (.error fo.stderr))
  | [], i, hi, _, _, _, _ => absurd hi (by simp)
  | t :: rest, 0, _, fo, _, hfail, hsucc => by
    unfold runPostExecs
    simp only [List.get] at hfail
    simp [execute_shell_cmd, hfail, hsucc]
  | t :: rest, i + 1, hi, fo, hpre, hfail, hsucc => by
    obtain ⟨o, ho, hs⟩ := hpre 0 (Nat.succ_pos i)
    simp only [List.get] at ho hfail
    have ih := runPostExecs_fail_at env params rest i (by
        simpa using Nat.lt_of_succ_lt_succ hi) fo
      (fun j hj => by
        obtain ⟨o2, ho2, hs2⟩ := hpre (j + 1) (Nat.succ_lt_succ hj)
        simp only [List.get] at ho2
        exact ⟨o2, ho2, hs2⟩)
      hfail hsucc
    unfold runPostExecs
    simp [execute_shell_cmd, ho, hs, ih]

theorem breakFirstSpace_no_space :
    ∀ l : List Char, (∀ c ∈ l, c ≠ ' ') → breakFirstSpace l = (l, none)
  | [], _ => rfl
  | c :: cs, h => by
    unfold breakFirstSpace
    rw [if_neg (h c (by simp))]
    simp [breakFirstSpace_no_space cs (fun d hd => h d (by simp [hd]))]

theorem breakFirstSpace_append (l r : List Char) (h : ∀ c ∈ l, c ≠ ' ') :
    breakFirstSpace (l ++ ' ' :: r) = (l, some r) := by
  induction l with
  | nil => simp [breakFirstSpace]
  | cons c cs ih =>
    have hc : c ≠ ' ' := h c (by simp)
    rw [List.cons_append]
    simp only [breakFirstSpace]
    rw [if_neg hc]
    simp [ih (fun d hd => h d (by simp [hd]))]

theorem splitWsAux_push (a : List Char) (h : ∀ c ∈ a, c.isWhitespace = false) :
    ∀ (r acc : List Char), splitWsAux (a ++ r) acc = splitWsAux r (a.reverse ++ acc) := by
  induction a with
  | nil => intro r acc; simp
  | cons c cs ih =>
    intro r acc
    have hc : c.isWhitespace = false := h c (by simp)
    rw [List.cons_append]
    rw [show splitWsAux (c :: (cs ++ r)) acc = splitWsAux (cs ++ r) (c :: acc) by
      simp only [splitWsAux]
      rw [if_neg (by simp [hc])]]
    rw [ih (fun d hd => h d (by simp [hd])) r (c :: acc)]
    simp

theorem mk_toList (s : String) : String.mk s.toList = s := rfl

theorem splitWhitespace_joinWords :
    ∀ ws : List String,
      (∀ w ∈ ws, w ≠ "" ∧ ∀ c ∈ w.toList, c.isWhitespace = false) →
      splitWhitespace (joinWords ws) = ws
  | [], _ => rfl
  | [w], h => by
    obtain ⟨hne, hnws⟩ := h w (by simp)
    have htl : w.toList ≠ [] := fun hc => hne (by
      have := congrArg String.mk hc
      rwa [mk_toList] at this)
    unfold splitWhitespace joinWords
    have := splitWsAux_push w.toList hnws [] []
    simp only [List.append_nil] at this
    rw [this]
    unfold splitWsAux
    rw [if_neg (by simpa using htl)]
    simp [mk_toList]
  | w :: x :: ws, h => by
    obtain ⟨hne, hnws⟩ := h w (by simp)
    have htl : w.toList ≠ [] := fun hc => hne (by
      have := congrArg String.mk hc
      rwa [mk_toList] at this)
    have ih := splitWhitespace_joinWords (x :: ws) (fun u hu => h u (by simp at hu ⊢; tauto))
    show splitWsAux (joinWords (w :: x :: ws)).toList [] = w :: x :: ws
    have hjoin : (joinWords (w :: x :: ws)).toList
        = w.toList ++ ' ' :: (joinWords (x :: ws)).toList := by
      show (w ++ " " ++ joinWords (x :: ws)).toList = _
      simp [String.toList, String.data_append]
    rw [hjoin, splitWsAux_push w.toList hnws]
    unfold splitWsAux
    rw [if_pos (by decide), if_neg (by simpa using htl)]
    simp only [List.append_nil, List.reverse_reverse, mk_toList]
    rw [show splitWsAux (joinWords (x :: ws)).toList [] = splitWhitespace (joinWords (x :: ws)) from rfl]
    rw [ih]

/-- A config with one action ("list_containers" → "docker ps") and no
post-exec chain. -/
def cfgPlain : Json :=
  .obj [("actions", .obj [("list_containers", .obj [("command", .str "docker ps")])])]

/-- An OS in which every process succeeds with empty output. -/
def envAllOk : Env := fun _ => .spawned ⟨true, "", ""⟩

/-- An OS in which every process exits non-zero with stderr "boom". -/
def envBoom : Env := fun _ => .spawned ⟨false, "", "boom"⟩

/-- An OS in which exactly the executable "p1" exits non-zero (stderr
"boom"); everything else succeeds. -/
def envP1Fails : Env := fun sp =>
  if sp.executable = "p1" then .spawned ⟨false, "", "boom"⟩ else .spawned ⟨true, "", ""⟩

/-- Action with post-exec chain ["p0 x", "p1 x"]: "p1 x" sits at index 1. -/
def cfgChainTwo : Json :=
  .obj [("actions", .obj [("list_containers", .obj
    [("command", .str "m x"), ("post_exec", .arr [.str "p0 x", .str "p1 x"])])])]

/-- Action with post-exec chain ["p1 x"]: "p1 x" sits at index 0. -/
def cfgChainOne : Json :=
  .obj [("actions", .obj [("list_containers", .obj
    [("command", .str "m x"), ("post_exec", .arr [.str "p1 x"])])])]

/-- C1: when the main rendered command runs and exits with a non-zero
status, execute stops and returns a failure carrying exactly the
subprocess stderr text, and the spawn trace is the main spawn alone — no
post-exec template is rendered into a spawn or executed. -/
theorem c1_main_nonzero_failfast (self : CpiCommand) (cmd : CpiCommandType) (env : Env)
    (tmpl : String) (posts : List String) (params : List (String × Json))
    (hres : resolveStage self cmd = .ok (tmpl, posts, params))
    (out : ProcOutput)
    (hrun : env (shellCmdSpawn (replace_template_params params tmpl)) = .spawned out)
    (hfail : out.success = false) :
    self.execute cmd env
      = ([shellCmdSpawn (replace_template_params params tmpl)],
          .error (.error out.stderr)) := by
  unfold CpiCommand.execute
  rw [hres]
  simp [execute_shell_cmd, hrun, hfail]

/-- Witness for C1: a one-action config with a post-exec chain; the main
command fails with stderr "boom" and the chain step never runs. -/
theorem c1_main_nonzero_failfast_witness :
    resolveStage ⟨cfgChainTwo⟩ .listContainers = .ok ("m x", ["p0 x", "p1 x"], [])
    ∧ (⟨cfgChainTwo⟩ : CpiCommand).execute .listContainers envBoom
        = ([⟨"m", ["x"]⟩], .error (.error "boom")) := by
  refine ⟨rfl, ?_⟩
  exact c1_main_nonzero_failfast ⟨cfgChainTwo⟩ .listContainers envBoom
    "m x" ["p0 x", "p1 x"] [] rfl ⟨false, "", "boom"⟩ rfl rfl

/-- C2 (amended): after a successful main command the post-exec templates
run strictly in declared order; if the step at index i exits non-zero, the
steps after it never run (the trace stops at step i) and the returned
failure carries that step's stderr text — and nothing else: the index is
not part of the error. -/
theorem c2_postexec_order_and_failfast (self : CpiCommand) (cmd : CpiCommandType) (env : Env)
    (tmpl : String) (posts : List String) (params : List (String × Json))
    (hres : resolveStage self cmd = .ok (tmpl, posts, params))
    (out : ProcOutput)
    (hrun : env (shellCmdSpawn (replace_template_params params tmpl)) = .spawned out)
    (hok : out.success = true)
    (i : Nat) (hi : i < posts.length) (fo : ProcOutput)
    (hpre : ∀ j (hj : j < i), ∃ o,
        env (shellCmdSpawn (replace_template_params params
            (posts.get ⟨j, Nat.lt_trans hj hi⟩))) = .spawned o ∧ o.success = true)
    (hfi : env (shellCmdSpawn (replace_template_params params (posts.get ⟨i, hi⟩)))
        = .spawned fo)
    (hfo : fo.success = false) :
    self.execute cmd env
      = (shellCmdSpawn (replace_template_params params tmpl)
            :: (posts.take (i + 1)).map
                (fun t => shellCmdSpawn (replace_template_params params t)),
          .error (.error fo.stderr)) := by
  unfold CpiCommand.execute
  rw [hres]
  have hrp := runPostExecs_fail_at env params posts i hi fo hpre hfi hfo
  simp [execute_shell_cmd, hrun, hok, hrp, Except.map]

/-- Witness for C2: chain ["p0 x", "p1 x"] where the step at index 1 fails
with stderr "boom": the trace is main, step 0, step 1, and the error is the
bare stderr. -/
theorem c2_postexec_order_and_failfast_witness :
    (1 : Nat) < (["p0 x", "p1 x"] : List String).length
    ∧ (⟨cfgChainTwo⟩ : CpiCommand).execute .listContainers envP1Fails
        = ([⟨"m", ["x"]⟩, ⟨"p0", ["x"]⟩, ⟨"p1", ["x"]⟩], .error (.error "boom")) := by
  refine ⟨by decide, ?_⟩
  exact c2_postexec_order_and_failfast ⟨cfgChainTwo⟩ .listContainers envP1Fails
    "m x" ["p0 x", "p1 x"] [] rfl ⟨true, "", ""⟩ rfl rfl 1 (by decide) ⟨false, "", "boom"⟩
    (fun j hj => by
      match j, hj with
      | 0, _ => exact ⟨⟨true, "", ""⟩, rfl, rfl⟩
      | j + 1, hj => exact absurd hj (by omega))
    rfl rfl

/-- C2 counterexample: the claim says the returned failure references the
failing index.  It does not: with the same failing step "p1 x" sitting at
index 1 (cfgChainTwo) and at index 0 (cfgChainOne), execute returns the
IDENTICAL error value — the bare stderr "boom" — although the failing
indices differ (the traces show the failing step's position). -/
theorem c2_error_has_no_index_counterexample :
    ((⟨cfgChainTwo⟩ : CpiCommand).execute .listContainers envP1Fails).1
        = [⟨"m", ["x"]⟩, ⟨"p0", ["x"]⟩, ⟨"p1", ["x"]⟩]
    ∧ ((⟨cfgChainOne⟩ : CpiCommand).execute .listContainers envP1Fails).1
        = [⟨"m", ["x"]⟩, ⟨"p1", ["x"]⟩]
    ∧ ((⟨cfgChainTwo⟩ : CpiCommand).execute .listContainers envP1Fails).2
        = ((⟨cfgChainOne⟩ : CpiCommand).execute .listContainers envP1Fails).2
    ∧ ((⟨cfgChainTwo⟩ : CpiCommand).execute .listContainers envP1Fails).2
        = .error (.error "boom") :=
  ⟨rfl, rfl, rfl, rfl⟩

/-- C3 counterexample: the rendered command line is NOT dispatched as one
opaque string — execute_shell_cmd parses it.  Two distinct command lines
(differing only in spacing) collapse to the same spawn request, so the
dispatch is lossy; and the spawned executable is the first word of the
line, not a shell. -/
theorem c3_not_opaque_counterexample :
    shellCmdSpawn "echo a  b" = shellCmdSpawn "echo  a b"
    ∧ ("echo a  b" : String) ≠ "echo  a b"
    ∧ (shellCmdSpawn "echo a  b").executable = "echo" :=
  ⟨rfl, by decide, rfl⟩

/-- C3 (amended): the process executor itself splits the rendered command
line: the first space-delimited token is spawned directly as the program
and the whitespace-separated tokens of the remainder are its arguments; no
shell interprets the line. -/
theorem c3_splits_into_words (w : String) (ws : List String)
    (hw : ∀ c ∈ w.toList, c ≠ ' ')
    (hws : ∀ a ∈ ws, a ≠ "" ∧ ∀ c ∈ a.toList, c.isWhitespace = false) :
    shellCmdSpawn (joinWords (w :: ws)) = ⟨w, ws⟩ := by
  cases ws with
  | nil =>
    show shellCmdSpawn w = ⟨w, []⟩
    unfold shellCmdSpawn
    rw [breakFirstSpace_no_space w.toList hw]
    simp [mk_toList, splitWhitespace, splitWsAux]
  | cons x rest =>
    have hjoin : (joinWords (w :: x :: rest)).toList
        = w.toList ++ ' ' :: (joinWords (x :: rest)).toList := by
      show (w ++ " " ++ joinWords (x :: rest)).toList = _
      simp [String.toList, String.data_append]
    unfold shellCmdSpawn
    rw [hjoin, breakFirstSpace_append w.toList _ hw]
    have hsw : splitWhitespace (String.mk (joinWords (x :: rest)).data)
        = x :: rest := splitWhitespace_joinWords (x :: rest) hws
    simp [mk_toList, hsw]

/-- Witness for C3 (amended): "docker" with arguments ["ps", "-a"]. -/
theorem c3_splits_into_words_witness :
    (∀ c ∈ ("docker" : String).toList, c ≠ ' ')
    ∧ shellCmdSpawn (joinWords ["docker", "ps", "-a"]) = ⟨"docker", ["ps", "-a"]⟩ :=
  ⟨by decide, c3_splits_into_words "docker" ["ps", "-a"] (by decide) (by decide)⟩

/-- The configuration file content at construction time (command
"echo one"), and its edited successor (command "echo two"). -/
def diskOne : Json :=
  .obj [("actions", .obj [("list_containers", .obj [("command", .str "echo one")])])]

def diskTwo : Json :=
  .obj [("actions", .obj [("list_containers", .obj [("command", .str "echo two")])])]

/-- C4 counterexample: a CpiCommand constructed while the file held
`diskOne` and invoked after the file was edited to `diskTwo` still spawns
the command of `diskOne`; an invocation that re-read the file
(executeRereading, the spec's words) would spawn the command of `diskTwo`.
So execute does not re-read the configuration file from disk, and the edit
does not take effect for the existing instance. -/
theorem c4_no_reread_counterexample :
    CpiCommand.new (.ok diskOne) = .ok ⟨diskOne⟩
    ∧ ((⟨diskOne⟩ : CpiCommand).execute .listContainers envAllOk).1
        = [⟨"echo", ["one"]⟩]
    ∧ (executeRereading (.ok diskTwo) .listContainers envAllOk).1
        = [⟨"echo", ["two"]⟩]
    ∧ (⟨"echo", ["one"]⟩ : Spawn) ≠ ⟨"echo", ["two"]⟩ :=
  ⟨rfl, rfl, rfl, by decide⟩

/-- C4 (amended): the configuration file is read from disk and parsed once,
in CpiCommand::new; execute re-parses that stored copy on every invocation,
so its behavior is a function of the disk content at construction time.  A
file edit takes effect exactly for CpiCommand values constructed after the
edit — which per-request construction (as the HTTP handlers do) provides —
not for instances that already exist. -/
theorem c4_config_captured_at_new (d dEdited : Json) (cmd : CpiCommandType) (env : Env)
    (c : CpiCommand) (h : CpiCommand.new (.ok d) = .ok c) :
    c.execute cmd env = (⟨d⟩ : CpiCommand).execute cmd env
    ∧ executeRereading (.ok dEdited) cmd env
        = (⟨dEdited⟩ : CpiCommand).execute cmd env := by
  have hc : (⟨d⟩ : CpiCommand) = c := by
    have h2 : (Except.ok (⟨d⟩ : CpiCommand) : Except Failure CpiCommand) = .ok c := h
    exact Except.ok.inj h2
  rw [← hc]
  exact ⟨rfl, rfl⟩

/-- Witness for C4 (amended), at the two concrete disk states. -/
theorem c4_config_captured_at_new_witness :
    CpiCommand.new (.ok diskOne) = .ok (⟨diskOne⟩ : CpiCommand)
    ∧ ((⟨diskOne⟩ : CpiCommand).execute .listContainers envAllOk
          = (⟨diskOne⟩ : CpiCommand).execute .listContainers envAllOk
        ∧ executeRereading (.ok diskTwo) .listContainers envAllOk
          = (⟨diskTwo⟩ : CpiCommand).execute .listContainers envAllOk) :=
  ⟨rfl, c4_config_captured_at_new diskOne diskTwo .listContainers envAllOk ⟨diskOne⟩ rfl⟩

/-- C5 counterexample: for the nested list [[1]] the code's trim_matches
strips ALL leading and trailing bracket characters, yielding "1", while the
claimed policy — compact JSON with only the outermost delimiters stripped —
yields "[1]". -/
theorem c5_trim_counterexample :
    replace_template_params [("x", .arr [.arr [.num 1]])] "\x7bx\x7d" = "1"
    ∧ stripOutermost (jsonCompact (.arr [.arr [.num 1]])) = "[1]"
    ∧ ("1" : String) ≠ "[1]" :=
  ⟨rfl, rfl, by decide⟩

/-- C5 (amended): render replaces each occurrence of `\x7bkey\x7d` with: a
string value unescaped, a number or boolean in canonical textual form, null
as "null", and a sequence or mapping as its compact JSON serialization with
ALL leading and trailing delimiter characters stripped (not only the
outermost pair — nested delimiters touching the ends are stripped too); in
particular ["80:80"] renders as "80:80" in quotes. -/
theorem c5_render_coercions :
    (∀ s, replacementOf (.str s) = s)
    ∧ (∀ n, replacementOf (.num n) = toString n)
    ∧ (∀ b, replacementOf (.bool b) = if b then "true" else "false")
    ∧ replacementOf .null = "null"
    ∧ (∀ xs, replacementOf (.arr xs) = trimMatchesPred isBracketChar (jsonCompact (.arr xs)))
    ∧ (∀ fs, replacementOf (.obj fs) = trimMatchesPred isBraceChar (jsonCompact (.obj fs)))
    ∧ replace_template_params [("ports", .arr [.str "80:80"])] "-p \x7bports\x7d"
        = "-p \"80:80\""
    ∧ replace_template_params [("ports", .arr [.str "80:80", .str "443:443"])]
        "-p \x7bports\x7d" = "-p \"80:80\",\"443:443\""
    ∧ replace_template_params [("vols", .obj [("A", .str "1")])] "-v \x7bvols\x7d"
        = "-v \"A\":\"1\"" :=
  ⟨fun _ => rfl, fun _ => rfl, fun _ => rfl, rfl, fun _ => rfl, fun _ => rfl,
    rfl, rfl, rfl⟩

/-- C6: a placeholder token whose key is absent from the parameter map is
left verbatim and causes no error: when no placeholder of the map occurs in
the template, rendering returns the template unchanged; in particular
render("echo \x7bmissing\x7d", \x7b\x7d) = "echo \x7bmissing\x7d". -/
theorem c6_missing_placeholder_kept (params : List (String × Json)) (t : String)
    (h : ∀ kv ∈ params, occursSub (placeholderOf kv.1).toList t.toList = false) :
    replace_template_params params t = t
    ∧ replace_template_params [] "echo \x7bmissing\x7d" = "echo \x7bmissing\x7d" :=
  ⟨replace_template_params_of_no_occurrence params t h, rfl⟩

/-- Witness for C6: a non-empty map whose key "name" does not occur in the
template "echo \x7bmissing\x7d"; the template passes through unchanged. -/
theorem c6_missing_placeholder_kept_witness :
    (∀ kv ∈ [("name", Json.str "web")],
        occursSub (placeholderOf kv.1).toList ("echo \x7bmissing\x7d").toList = false)
    ∧ replace_template_params [("name", Json.str "web")] "echo \x7bmissing\x7d"
        = "echo \x7bmissing\x7d" :=
  ⟨by decide,
    (c6_missing_placeholder_kept [("name", Json.str "web")] "echo \x7bmissing\x7d"
      (by decide)).1⟩

/-- C7: when the main command succeeds and every post-exec step succeeds
(whatever those steps print), the success value of execute is built from
the MAIN command's captured stdout alone — the post-exec stdout is
discarded. -/
theorem c7_payload_is_main_stdout (self : CpiCommand) (cmd : CpiCommandType) (env : Env)
    (tmpl : String) (posts : List String) (params : List (String × Json))
    (hres : resolveStage self cmd = .ok (tmpl, posts, params))
    (out : ProcOutput)
    (hrun : env (shellCmdSpawn (replace_template_params params tmpl)) = .spawned out)
    (hok : out.success = true)
    (hposts : ∀ t ∈ posts, ∃ o,
        env (shellCmdSpawn (replace_template_params params t)) = .spawned o
          ∧ o.success = true) :
    (self.execute cmd env).2 = .ok (.obj [("result", .str out.stdout)]) := by
  unfold CpiCommand.execute
  rw [hres]
  have hrp := runPostExecs_all_ok env params posts hposts
  simp [execute_shell_cmd, hrun, hok, hrp, Except.map]

/-- Action "start_container" with a post-exec step. -/
def cfgStartWeb : Json :=
  .obj [("actions", .obj [("start_container", .obj
    [("command", .str "docker start \x7bname\x7d"),
     ("post_exec", .arr [.str "p0 x"])])])]

/-- An OS where docker prints "web\n" and every other process prints
"junk"; everything succeeds. -/
def envWebJunk : Env := fun sp =>
  if sp.executable = "docker" then .spawned ⟨true, "web\n", ""⟩
  else .spawned ⟨true, "junk", ""⟩

/-- Witness for C7: the main command prints "web\n", the post-exec step
prints "junk"; the result carries "web\n" only. -/
theorem c7_payload_is_main_stdout_witness :
    resolveStage ⟨cfgStartWeb⟩ (.startContainer "web")
        = .ok ("docker start \x7bname\x7d", ["p0 x"], [("name", .str "web")])
    ∧ ((⟨cfgStartWeb⟩ : CpiCommand).execute (.startContainer "web") envWebJunk).2
        = .ok (.obj [("result", .str "web\n")]) := by
  refine ⟨rfl, ?_⟩
  exact c7_payload_is_main_stdout ⟨cfgStartWeb⟩ (.startContainer "web") envWebJunk
    "docker start \x7bname\x7d" ["p0 x"] [("name", .str "web")] rfl
    ⟨true, "web\n", ""⟩ rfl rfl
    (fun t ht => by
      rw [List.mem_singleton] at ht
      subst ht
      exact ⟨⟨true, "junk", ""⟩, rfl, rfl⟩)

/-- C8: a command whose tag has no entry under the actions object makes
execute return a failure naming that tag, with an empty spawn trace — no
subprocess is ever spawned. -/
theorem c8_unknown_tag (self : CpiCommand) (cmd : CpiCommandType) (env : Env)
    (actions : Json)
    (hact : self.config.getKey "actions" = some actions)
    (hmiss : actions.getKey cmd.toString = none) :
    self.execute cmd env
      = ([], .error (.error
          ("Command type not found for \x27" ++ cmd.toString ++ "\x27"))) := by
  have hres : resolveStage self cmd
      = .error (.error ("Command type not found for \x27" ++ cmd.toString ++ "\x27")) := by
    unfold resolveStage
    simp [hact, hmiss]
  unfold CpiCommand.execute
  simp [hres]

/-- Witness for C8: cfgPlain has no "start_container" action. -/
theorem c8_unknown_tag_witness :
    ((.obj [("list_containers", .obj [("command", .str "docker ps")])] : Json).getKey
        "start_container" = none)
    ∧ (⟨cfgPlain⟩ : CpiCommand).execute (.startContainer "web") envAllOk
        = ([], .error (.error "Command type not found for \x27start_container\x27")) := by
  refine ⟨rfl, ?_⟩
  exact c8_unknown_tag ⟨cfgPlain⟩ (.startContainer "web") envAllOk
    (.obj [("list_containers", .obj [("command", .str "docker ps")])]) rfl rfl

/-- C9: parameter extraction maps ListContainers to the empty parameter
map, and rendering any template against the empty map is the identity. -/
theorem c9_listcontainers_empty_map :
    extractParamsCode .listContainers = .ok []
    ∧ ∀ t : String, replace_template_params [] t = t :=
  ⟨rfl, fun _ => rfl⟩

/-- C10: when the resolved action has a "command" field whose value is not
a string, execute ends in the panic of `.as_str().unwrap()` (modelled as
the distinguished `Failure.panicked`), not in a typed configuration error,
and nothing is spawned. -/
theorem c10_nonstring_command_panics (self : CpiCommand) (cmd : CpiCommandType) (env : Env)
    (actions ct cv : Json)
    (h1 : self.config.getKey "actions" = some actions)
    (h2 : actions.getKey cmd.toString = some ct)
    (h3 : ct.getKey "command" = some cv)
    (h4 : cv.asStr = none) :
    self.execute cmd env
      = ([], .error (.panicked "called Option::unwrap on a None value")) := by
  have hres : resolveStage self cmd
      = .error (.panicked "called Option::unwrap on a None value") := by
    unfold resolveStage
    simp [h1, h2, h3, h4]
  unfold CpiCommand.execute
  simp [hres]

/-- A config whose "command" field is the number 42, not a string. -/
def cfgBadCommand : Json :=
  .obj [("actions", .obj [("list_containers", .obj [("command", .num 42)])])]

/-- Witness for C10: the number-valued command field panics. -/
theorem c10_nonstring_command_panics_witness :
    (Json.num 42).asStr = none
    ∧ (⟨cfgBadCommand⟩ : CpiCommand).execute .listContainers envAllOk
        = ([], .error (.panicked "called Option::unwrap on a None value")) :=
  ⟨rfl, c10_nonstring_command_panics ⟨cfgBadCommand⟩ .listContainers envAllOk
    _ _ _ rfl rfl rfl rfl⟩
